import Mathlib

/-!
Shallow embedding of the mock virtual-machine lifecycle manager
(`vm/vm_manager.go`, type `MockVMManager`) and proofs about its operations.

The Go manager stores `vms map[string]*MockVM` behind a `sync.RWMutex`;
every operation acquires the mutex for its whole body, so each method is a
sequential function from the registry (plus arguments) to a new registry and
a result.  We embed the registry as an association list with unique keys
(Go map semantics), and each method as an explicit state-passing function
`Registry → args → Registry × results`.  The `next int` field of
`MockVMManager` is initialized to 1 and never read or written by any method,
so it is omitted from the state.  Log statements have no observable effect
on the registry or on results and are omitted.
-/

namespace VMMgr

/-- Translation of `type VMState string`: the state is a string value. -/
abbrev VMState := String

/-- Translation of the constant `VMStateStopped VMState = "stopped"`. -/
def VMStateStopped : VMState := "stopped"

/-- Translation of the constant `VMStateRunning VMState = "running"`. -/
def VMStateRunning : VMState := "running"

/-- Translation of the constant `VMStatePaused VMState = "paused"`. -/
def VMStatePaused : VMState := "paused"

/-- Translation of `type VMConfig struct`.  `Memory uint64`, `VCPUs uint`
and `DiskSize uint64` are unsigned machine integers; the operations only
ever compare them with zero, so `Nat` embeds them exactly. -/
structure VMConfig where
  name : String
  memory : Nat
  vcpus : Nat
  diskPath : String
  diskSize : Nat
  isoImage : String
  network : String
deriving DecidableEq, Repr

/-- Translation of `type MockVM struct { Config VMConfig; State VMState }`. -/
structure MockVM where
  config : VMConfig
  state : VMState
deriving DecidableEq, Repr

/-- The registry `vms map[string]*MockVM`, embedded as an association list.
Registries produced by the operations from the empty registry always have
unique keys, matching Go map semantics. -/
abbrev Registry := List (String × MockVM)

/-- The errors the manager methods produce with `fmt.Errorf`, one
constructor per distinct error site in `vm_manager.go`. -/
inductive VMErr where
  | alreadyExists (name : String)
  | emptyName
  | zeroMemory
  | zeroVCPUs
  | notFound (name : String)
deriving DecidableEq, Repr

/-- The error categories the adapter layer distinguishes. -/
inductive ErrKind where
  | alreadyExists
  | invalidArgument
  | notFound
deriving DecidableEq, Repr

/-- Category of each concrete error. -/
def VMErr.kind : VMErr → ErrKind
  | .alreadyExists _ => .alreadyExists
  | .emptyName => .invalidArgument
  | .zeroMemory => .invalidArgument
  | .zeroVCPUs => .invalidArgument
  | .notFound _ => .notFound

/-- Go map read `vm, exists := m.vms[name]` on the association list. -/
def lookupVM : Registry → String → Option MockVM
  | [], _ => none
  | (k, v) :: rest, name => if k = name then some v else lookupVM rest name

/-- Go in-place write through the stored pointer (`vm.State = ...`):
replace the record stored under `name`. -/
def updateVM (r : Registry) (name : String) (vm : MockVM) : Registry :=
  r.map (fun p => if p.1 = name then (p.1, vm) else p)

/-- Go `delete(m.vms, name)`: drop the entry stored under `name`. -/
def removeVM (r : Registry) (name : String) : Registry :=
  r.filter (fun p => p.1 != name)

/-- Translation of `func (m *MockVMManager) CreateVM(config VMConfig) error`.
Checks, in source order: existing name, empty name, zero memory, zero
vcpus; then stores the record with state Stopped and immediately advances
it to Running before returning. -/
def CreateVM (r : Registry) (config : VMConfig) : Registry × Option VMErr :=
  if (lookupVM r config.name).isSome then
    (r, some (.alreadyExists config.name))
  else if config.name = "" then
    (r, some .emptyName)
  else if config.memory = 0 then
    (r, some .zeroMemory)
  else if config.vcpus = 0 then
    (r, some .zeroVCPUs)
  else
    let mockVM : MockVM := { config := config, state := VMStateStopped }
    let mockVM : MockVM := { mockVM with state := VMStateRunning }
    ((config.name, mockVM) :: r, none)

/-- Translation of `func (m *MockVMManager) ListVMs() ([]string, error)`:
returns the names of all stored records and a nil error. -/
def ListVMs (r : Registry) : Registry × List String × Option VMErr :=
  (r, r.map (fun p => p.1), none)

/-- Translation of `func (m *MockVMManager) StartVM(name string) error`. -/
def StartVM (r : Registry) (name : String) : Registry × Option VMErr :=
  match lookupVM r name with
  | none => (r, some (.notFound name))
  | some vm =>
    if vm.state = VMStateRunning then
      (r, none)
    else
      (updateVM r name { vm with state := VMStateRunning }, none)

/-- Translation of `func (m *MockVMManager) StopVM(name string) error`. -/
def StopVM (r : Registry) (name : String) : Registry × Option VMErr :=
  match lookupVM r name with
  | none => (r, some (.notFound name))
  | some vm =>
    if vm.state = VMStateStopped then
      (r, none)
    else
      (updateVM r name { vm with state := VMStateStopped }, none)

/-- Translation of `func (m *MockVMManager) DeleteVM(name string) error`:
not-found check, then an implicit stop of a running record, then removal. -/
def DeleteVM (r : Registry) (name : String) : Registry × Option VMErr :=
  match lookupVM r name with
  | none => (r, some (.notFound name))
  | some vm =>
    let r := if vm.state = VMStateRunning then
        updateVM r name { vm with state := VMStateStopped }
      else r
    (removeVM r name, none)

/-- Translation of `func (m *MockVMManager) GetVMInfo(name string) (*MockVM, error)`:
`nil` becomes `none`. -/
def GetVMInfo (r : Registry) (name : String) :
    Registry × Option MockVM × Option VMErr :=
  match lookupVM r name with
  | none => (r, none, some (.notFound name))
  | some vm => (r, some vm, none)

/-- Translation of `func (m *MockVMManager) GetVMState(name string) (VMState, error)`:
on a missing name the Go function returns the zero value `""` for the
`VMState` result alongside the error. -/
def GetVMState (r : Registry) (name : String) :
    Registry × VMState × Option VMErr :=
  match lookupVM r name with
  | none => (r, "", some (.notFound name))
  | some vm => (r, vm.state, none)

/-- Translation of `func (m *MockVMManager) Close() error`: a no-op. -/
def Close (r : Registry) : Registry × Option VMErr :=
  (r, none)

/-- Sequential execution of a list of `CreateVM` calls, returning the final
registry and the per-call results.  The `sync.Mutex` in the source
serializes concurrent calls, so any set of concurrent `CreateVM` calls
executes as some sequential order of this form. -/
def runCreates (r : Registry) : List VMConfig → Registry × List (Option VMErr)
  | [] => (r, [])
  | c :: rest =>
    let step := CreateVM r c
    let tail := runCreates step.1 rest
    (tail.1, step.2 :: tail.2)

/-- Registries reachable from the fresh manager (`NewMockVMManager`, whose
map is empty) by any sequence of manager operations. -/
inductive Reachable : Registry → Prop where
  | empty : Reachable []
  | create (r : Registry) (c : VMConfig) : Reachable r → Reachable (CreateVM r c).1
  | listvms (r : Registry) : Reachable r → Reachable (ListVMs r).1
  | startvm (r : Registry) (n : String) : Reachable r → Reachable (StartVM r n).1
  | stopvm (r : Registry) (n : String) : Reachable r → Reachable (StopVM r n).1
  | deletevm (r : Registry) (n : String) : Reachable r → Reachable (DeleteVM r n).1
  | info (r : Registry) (n : String) : Reachable r → Reachable (GetVMInfo r n).1
  | state (r : Registry) (n : String) : Reachable r → Reachable (GetVMState r n).1
  | close (r : Registry) : Reachable r → Reachable (Close r).1

/-- A sample valid configuration used to instantiate theorems. -/
def sampleConfig : VMConfig :=
  { name := "vm1", memory := 1024, vcpus := 2, diskPath := "", diskSize := 0,
    isoImage := "", network := "" }

theorem lookupVM_none_iff (r : Registry) (n : String) :
    lookupVM r n = none ↔ ∀ p ∈ r, p.1 ≠ n := by
  induction r with
  | nil => simp [lookupVM]
  | cons p rest ih =>
    obtain ⟨k, v⟩ := p
    by_cases hk : k = n
    · simp [lookupVM, hk]
    · simp [lookupVM, hk, ih]

theorem lookupVM_cons (k : String) (v : MockVM) (rest : Registry) (n : String) :
    lookupVM ((k, v) :: rest) n = if k = n then some v else lookupVM rest n :=
  rfl

theorem updateVM_cons (k : String) (v vm : MockVM) (rest : Registry) (n : String) :
    updateVM ((k, v) :: rest) n vm =
      (if k = n then (k, vm) else (k, v)) :: updateVM rest n vm := by
  by_cases hk : k = n <;> simp [updateVM, hk]

theorem removeVM_cons (k : String) (v : MockVM) (rest : Registry) (n : String) :
    removeVM ((k, v) :: rest) n =
      if k = n then removeVM rest n else (k, v) :: removeVM rest n := by
  by_cases hk : k = n <;> simp [removeVM, hk]

theorem lookupVM_updateVM_self (r : Registry) (n : String) (vm vm0 : MockVM)
    (h : lookupVM r n = some vm0) :
    lookupVM (updateVM r n vm) n = some vm := by
  induction r with
  | nil => simp [lookupVM] at h
  | cons p rest ih =>
    obtain ⟨k, v⟩ := p
    rw [updateVM_cons]
    by_cases hk : k = n
    · rw [if_pos hk, lookupVM_cons, if_pos hk]
    · rw [lookupVM_cons, if_neg hk] at h
      rw [if_neg hk, lookupVM_cons, if_neg hk]
      exact ih h

theorem lookupVM_updateVM_ne (r : Registry) (n q : String) (vm : MockVM)
    (hq : q ≠ n) :
    lookupVM (updateVM r n vm) q = lookupVM r q := by
  induction r with
  | nil => simp [updateVM]
  | cons p rest ih =>
    obtain ⟨k, v⟩ := p
    rw [updateVM_cons]
    by_cases hk : k = n
    · have hkq : k ≠ q := fun hkq => hq (hkq ▸ hk)
      rw [if_pos hk, lookupVM_cons, lookupVM_cons, if_neg hkq, if_neg hkq]
      exact ih
    · rw [if_neg hk, lookupVM_cons, lookupVM_cons]
      by_cases hkq : k = q
      · rw [if_pos hkq, if_pos hkq]
      · rw [if_neg hkq, if_neg hkq]
        exact ih

theorem lookupVM_removeVM_self (r : Registry) (n : String) :
    lookupVM (removeVM r n) n = none := by
  induction r with
  | nil => simp [removeVM, lookupVM]
  | cons p rest ih =>
    obtain ⟨k, v⟩ := p
    rw [removeVM_cons]
    by_cases hk : k = n
    · rw [if_pos hk]
      exact ih
    · rw [if_neg hk, lookupVM_cons, if_neg hk]
      exact ih

theorem lookupVM_removeVM_ne (r : Registry) (n q : String) (hq : q ≠ n) :
    lookupVM (removeVM r n) q = lookupVM r q := by
  induction r with
  | nil => simp [removeVM]
  | cons p rest ih =>
    obtain ⟨k, v⟩ := p
    rw [removeVM_cons, lookupVM_cons]
    by_cases hk : k = n
    · have hkq : k ≠ q := fun hkq => hq (hkq ▸ hk)
      rw [if_pos hk, if_neg hkq]
      exact ih
    · rw [if_neg hk, lookupVM_cons]
      by_cases hkq : k = q
      · rw [if_pos hkq, if_pos hkq]
      · rw [if_neg hkq, if_neg hkq]
        exact ih

theorem mem_updateVM (r : Registry) (n : String) (vm : MockVM)
    (p : String × MockVM) (hp : p ∈ updateVM r n vm) :
    p ∈ r ∨ p.2 = vm := by
  unfold updateVM at hp
  obtain ⟨q, hq, hfq⟩ := List.mem_map.mp hp
  by_cases hqn : q.1 = n
  · right
    simp [hqn] at hfq
    rw [← hfq]
  · left
    simp [hqn] at hfq
    exact hfq ▸ hq

theorem mem_removeVM (r : Registry) (n : String) (p : String × MockVM)
    (hp : p ∈ removeVM r n) : p ∈ r :=
  (List.mem_filter.mp hp).1

theorem filter_name_eq_nil_of_absent (r : Registry) (n : String)
    (h : lookupVM r n = none) :
    r.filter (fun p => p.1 == n) = [] := by
  rw [lookupVM_none_iff] at h
  rw [List.filter_eq_nil_iff]
  intro p hp
  simpa using h p hp

theorem createVM_dup (r : Registry) (c : VMConfig)
    (h : (lookupVM r c.name).isSome) :
    CreateVM r c = (r, some (.alreadyExists c.name)) := by
  simp [CreateVM, h]

theorem createVM_emptyName (r : Registry) (c : VMConfig)
    (h1 : lookupVM r c.name = none) (h2 : c.name = "") :
    CreateVM r c = (r, some .emptyName) := by
  have h1' : ¬((lookupVM r c.name).isSome = true) := by simp [h1]
  simp only [CreateVM]
  rw [if_neg h1', if_pos h2]

theorem createVM_zeroMemory (r : Registry) (c : VMConfig)
    (h1 : lookupVM r c.name = none) (h2 : c.name ≠ "") (h3 : c.memory = 0) :
    CreateVM r c = (r, some .zeroMemory) := by
  have h1' : ¬((lookupVM r c.name).isSome = true) := by simp [h1]
  simp only [CreateVM]
  rw [if_neg h1', if_neg h2, if_pos h3]

theorem createVM_zeroVCPUs (r : Registry) (c : VMConfig)
    (h1 : lookupVM r c.name = none) (h2 : c.name ≠ "") (h3 : c.memory ≠ 0)
    (h4 : c.vcpus = 0) :
    CreateVM r c = (r, some .zeroVCPUs) := by
  have h1' : ¬((lookupVM r c.name).isSome = true) := by simp [h1]
  simp only [CreateVM]
  rw [if_neg h1', if_neg h2, if_neg h3, if_pos h4]

theorem createVM_success (r : Registry) (c : VMConfig)
    (h1 : lookupVM r c.name = none) (h2 : c.name ≠ "") (h3 : c.memory ≠ 0)
    (h4 : c.vcpus ≠ 0) :
    CreateVM r c = ((c.name, { config := c, state := VMStateRunning }) :: r, none) := by
  have h1' : ¬((lookupVM r c.name).isSome = true) := by simp [h1]
  simp only [CreateVM]
  rw [if_neg h1', if_neg h2, if_neg h3, if_neg h4]

/-- C1: for every configuration with a non-empty name not already present in
the registry, memory > 0, and vcpus > 0, `CreateVM` succeeds (returns no
error), stores a record for that name, and an immediately following
`GetVMState` of that name returns state Running with no error. -/
theorem create_then_inspect_running (r : Registry) (c : VMConfig)
    (habs : lookupVM r c.name = none) (hname : c.name ≠ "")
    (hmem : 0 < c.memory) (hcpu : 0 < c.vcpus) :
    (CreateVM r c).2 = none ∧
    lookupVM (CreateVM r c).1 c.name = some { config := c, state := VMStateRunning } ∧
    (GetVMState (CreateVM r c).1 c.name).2.1 = VMStateRunning ∧
    (GetVMState (CreateVM r c).1 c.name).2.2 = none := by
  have hmem' : c.memory ≠ 0 := Nat.pos_iff_ne_zero.mp hmem
  have hcpu' : c.vcpus ≠ 0 := Nat.pos_iff_ne_zero.mp hcpu
  have hcreate : CreateVM r c =
      ((c.name, { config := c, state := VMStateRunning }) :: r, none) := by
    simp [CreateVM, habs, hname, hmem', hcpu']
  refine ⟨by rw [hcreate], ?_, ?_, ?_⟩ <;>
    rw [hcreate] <;> simp [GetVMState, lookupVM_cons]

/-- Witness for C1 at the empty registry and a concrete configuration. -/
theorem create_then_inspect_running_witness :
    (CreateVM [] sampleConfig).2 = none ∧
    (GetVMState (CreateVM [] sampleConfig).1 sampleConfig.name).2.1 = VMStateRunning :=
  ⟨(create_then_inspect_running [] sampleConfig rfl (by decide) (by decide) (by decide)).1,
   (create_then_inspect_running [] sampleConfig rfl (by decide) (by decide) (by decide)).2.2.1⟩

/-- C10: for every name absent from the registry, `GetVMState` returns the
zero value `""` as the state alongside the not-found error — a value equal
to none of the three defined state constants — while `GetVMInfo` returns no
record (`nil`) with the not-found error; both leave the registry
unchanged. -/
theorem inspect_absent_zero_value (r : Registry) (n : String)
    (h : lookupVM r n = none) :
    GetVMState r n = (r, "", some (.notFound n)) ∧
    ("" : VMState) ≠ VMStateStopped ∧
    ("" : VMState) ≠ VMStateRunning ∧
    ("" : VMState) ≠ VMStatePaused ∧
    GetVMInfo r n = (r, none, some (.notFound n)) :=
  ⟨by simp [GetVMState, h], by decide, by decide, by decide, by simp [GetVMInfo, h]⟩

/-- Witness for C10 at the empty registry. -/
theorem inspect_absent_zero_value_witness :
    GetVMState [] "ghost" = ([], "", some (.notFound "ghost")) ∧
    GetVMInfo [] "ghost" = ([], none, some (.notFound "ghost")) :=
  ⟨(inspect_absent_zero_value [] "ghost" rfl).1,
   (inspect_absent_zero_value [] "ghost" rfl).2.2.2.2⟩

/-- C4: `CreateVM` performs its checks in the fixed order existence → empty
name → memory → vcpus and fails with exactly the error of the first
violated check: an already-present name yields AlreadyExists; otherwise an
empty name yields InvalidArgument; otherwise zero memory yields
InvalidArgument; otherwise zero vcpus yields InvalidArgument; otherwise it
succeeds. -/
theorem createVM_validation_order (r : Registry) (c : VMConfig) :
    ((lookupVM r c.name).isSome →
      (CreateVM r c).2 = some (.alreadyExists c.name) ∧
      (VMErr.alreadyExists c.name).kind = ErrKind.alreadyExists) ∧
    (lookupVM r c.name = none → c.name = "" →
      (CreateVM r c).2 = some .emptyName ∧
      VMErr.emptyName.kind = ErrKind.invalidArgument) ∧
    (lookupVM r c.name = none → c.name ≠ "" → c.memory = 0 →
      (CreateVM r c).2 = some .zeroMemory ∧
      VMErr.zeroMemory.kind = ErrKind.invalidArgument) ∧
    (lookupVM r c.name = none → c.name ≠ "" → c.memory ≠ 0 → c.vcpus = 0 →
      (CreateVM r c).2 = some .zeroVCPUs ∧
      VMErr.zeroVCPUs.kind = ErrKind.invalidArgument) ∧
    (lookupVM r c.name = none → c.name ≠ "" → c.memory ≠ 0 → c.vcpus ≠ 0 →
      (CreateVM r c).2 = none) := by
  refine ⟨fun h1 => ⟨by rw [createVM_dup r c h1], rfl⟩,
    fun h1 h2 => ⟨by rw [createVM_emptyName r c h1 h2], rfl⟩,
    fun h1 h2 h3 => ⟨by rw [createVM_zeroMemory r c h1 h2 h3], rfl⟩,
    fun h1 h2 h3 h4 => ⟨by rw [createVM_zeroVCPUs r c h1 h2 h3 h4], rfl⟩,
    fun h1 h2 h3 h4 => by rw [createVM_success r c h1 h2 h3 h4]⟩

/-- Witness for C4: a duplicate name is rejected with AlreadyExists even
though the rest of the configuration is valid. -/
theorem createVM_validation_order_witness :
    (CreateVM [("vm1", { config := sampleConfig, state := VMStateRunning })]
      sampleConfig).2 = some (.alreadyExists "vm1") :=
  ((createVM_validation_order
      [("vm1", { config := sampleConfig, state := VMStateRunning })]
      sampleConfig).1 (by decide)).1

/-- C2: every failing operation leaves the registry exactly unchanged: a
`CreateVM` that returns an error adds and modifies nothing (in particular a
duplicate-name create leaves the existing record intact), and `StartVM`,
`StopVM`, `DeleteVM`, `GetVMInfo`, `GetVMState` on an absent name return a
not-found error with the registry unchanged. -/
theorem failed_ops_leave_registry_unchanged (r : Registry) (c : VMConfig)
    (n : String) :
    (∀ e, (CreateVM r c).2 = some e → (CreateVM r c).1 = r) ∧
    ((lookupVM r c.name).isSome →
      (CreateVM r c).1 = r ∧
      lookupVM (CreateVM r c).1 c.name = lookupVM r c.name) ∧
    (lookupVM r n = none →
      StartVM r n = (r, some (.notFound n)) ∧
      StopVM r n = (r, some (.notFound n)) ∧
      DeleteVM r n = (r, some (.notFound n)) ∧
      GetVMInfo r n = (r, none, some (.notFound n)) ∧
      GetVMState r n = (r, "", some (.notFound n))) := by
  refine ⟨fun e he => ?_, fun h1 => ?_, fun h => ?_⟩
  · by_cases h1 : (lookupVM r c.name).isSome
    · rw [createVM_dup r c h1]
    · have h1' : lookupVM r c.name = none := by
        cases hl : lookupVM r c.name with
        | none => rfl
        | some vm => rw [hl] at h1; simp at h1
      by_cases h2 : c.name = ""
      · rw [createVM_emptyName r c h1' h2]
      · by_cases h3 : c.memory = 0
        · rw [createVM_zeroMemory r c h1' h2 h3]
        · by_cases h4 : c.vcpus = 0
          · rw [createVM_zeroVCPUs r c h1' h2 h3 h4]
          · rw [createVM_success r c h1' h2 h3 h4] at he
            simp at he
  · rw [createVM_dup r c h1]
    exact ⟨rfl, rfl⟩
  · simp [StartVM, StopVM, DeleteVM, GetVMInfo, GetVMState, h]

/-- Witness for C2: not-found operations on the empty registry leave it
empty and report the not-found error. -/
theorem failed_ops_leave_registry_unchanged_witness :
    StartVM [] "ghost2" = ([], some (.notFound "ghost2")) ∧
    DeleteVM [] "ghost2" = ([], some (.notFound "ghost2")) :=
  ⟨((failed_ops_leave_registry_unchanged [] sampleConfig "ghost2").2.2 rfl).1,
   ((failed_ops_leave_registry_unchanged [] sampleConfig "ghost2").2.2 rfl).2.2.1⟩

theorem startVM_noop (r : Registry) (n : String) (vm : MockVM)
    (h : lookupVM r n = some vm) (hs : vm.state = VMStateRunning) :
    StartVM r n = (r, none) := by
  simp [StartVM, h, hs]

theorem startVM_transition (r : Registry) (n : String) (vm : MockVM)
    (h : lookupVM r n = some vm) (hs : vm.state ≠ VMStateRunning) :
    StartVM r n = (updateVM r n { vm with state := VMStateRunning }, none) := by
  simp [StartVM, h, hs]

theorem stopVM_noop (r : Registry) (n : String) (vm : MockVM)
    (h : lookupVM r n = some vm) (hs : vm.state = VMStateStopped) :
    StopVM r n = (r, none) := by
  simp [StopVM, h, hs]

theorem stopVM_transition (r : Registry) (n : String) (vm : MockVM)
    (h : lookupVM r n = some vm) (hs : vm.state ≠ VMStateStopped) :
    StopVM r n = (updateVM r n { vm with state := VMStateStopped }, none) := by
  simp [StopVM, h, hs]

theorem deleteVM_running (r : Registry) (n : String) (vm : MockVM)
    (h : lookupVM r n = some vm) (hs : vm.state = VMStateRunning) :
    DeleteVM r n =
      (removeVM (updateVM r n { vm with state := VMStateStopped }) n, none) := by
  simp [DeleteVM, h, hs]

theorem deleteVM_notRunning (r : Registry) (n : String) (vm : MockVM)
    (h : lookupVM r n = some vm) (hs : vm.state ≠ VMStateRunning) :
    DeleteVM r n = (removeVM r n, none) := by
  simp [DeleteVM, h, hs]

theorem startVM_lookup_running (r : Registry) (n : String) (vm : MockVM)
    (h : lookupVM r n = some vm) :
    ∃ vm1, lookupVM (StartVM r n).1 n = some vm1 ∧ vm1.state = VMStateRunning := by
  by_cases hs : vm.state = VMStateRunning
  · rw [startVM_noop r n vm h hs]
    exact ⟨vm, h, hs⟩
  · rw [startVM_transition r n vm h hs]
    exact ⟨_, lookupVM_updateVM_self r n _ vm h, rfl⟩

theorem stopVM_lookup_stopped (r : Registry) (n : String) (vm : MockVM)
    (h : lookupVM r n = some vm) :
    ∃ vm1, lookupVM (StopVM r n).1 n = some vm1 ∧ vm1.state = VMStateStopped := by
  by_cases hs : vm.state = VMStateStopped
  · rw [stopVM_noop r n vm h hs]
    exact ⟨vm, h, hs⟩
  · rw [stopVM_transition r n vm h hs]
    exact ⟨_, lookupVM_updateVM_self r n _ vm h, rfl⟩

theorem not_mem_names_of_lookup_none (r : Registry) (n : String)
    (h : lookupVM r n = none) :
    n ∉ r.map (fun p => p.1) := by
  rw [lookupVM_none_iff] at h
  intro hm
  obtain ⟨p, hp, hpn⟩ := List.mem_map.mp hm
  exact h p hp hpn

/-- C3: `StartVM` and `StopVM` are idempotent on existing resources: a first
call succeeds and leaves the state Running (resp. Stopped), a second call
in succession is a successful no-op leaving the same state, and a call made
when the resource is already in the target state succeeds without any
change. -/
theorem start_stop_idempotent (r : Registry) (n : String) (vm : MockVM)
    (h : lookupVM r n = some vm) :
    ((StartVM r n).2 = none ∧
      (∃ vm1, lookupVM (StartVM r n).1 n = some vm1 ∧
        vm1.state = VMStateRunning) ∧
      StartVM (StartVM r n).1 n = ((StartVM r n).1, none)) ∧
    ((StopVM r n).2 = none ∧
      (∃ vm1, lookupVM (StopVM r n).1 n = some vm1 ∧
        vm1.state = VMStateStopped) ∧
      StopVM (StopVM r n).1 n = ((StopVM r n).1, none)) ∧
    (vm.state = VMStateRunning → StartVM r n = (r, none)) ∧
    (vm.state = VMStateStopped → StopVM r n = (r, none)) := by
  refine ⟨⟨?_, startVM_lookup_running r n vm h, ?_⟩,
    ⟨?_, stopVM_lookup_stopped r n vm h, ?_⟩,
    fun hs => startVM_noop r n vm h hs,
    fun hs => stopVM_noop r n vm h hs⟩
  · by_cases hs : vm.state = VMStateRunning
    · rw [startVM_noop r n vm h hs]
    · rw [startVM_transition r n vm h hs]
  · obtain ⟨vm1, hl, hs1⟩ := startVM_lookup_running r n vm h
    exact startVM_noop _ n vm1 hl hs1
  · by_cases hs : vm.state = VMStateStopped
    · rw [stopVM_noop r n vm h hs]
    · rw [stopVM_transition r n vm h hs]
  · obtain ⟨vm1, hl, hs1⟩ := stopVM_lookup_stopped r n vm h
    exact stopVM_noop _ n vm1 hl hs1

/-- Witness for C3 on a single-entry registry holding a running record. -/
theorem start_stop_idempotent_witness :
    (StartVM [("vm1", { config := sampleConfig, state := VMStateRunning })]
      "vm1").2 = none ∧
    StartVM [("vm1", { config := sampleConfig, state := VMStateRunning })]
      "vm1" = ([("vm1", { config := sampleConfig, state := VMStateRunning })], none) :=
  ⟨(start_stop_idempotent
      [("vm1", { config := sampleConfig, state := VMStateRunning })]
      "vm1" { config := sampleConfig, state := VMStateRunning } rfl).1.1,
   (start_stop_idempotent
      [("vm1", { config := sampleConfig, state := VMStateRunning })]
      "vm1" { config := sampleConfig, state := VMStateRunning } rfl).2.2.1 rfl⟩

/-- C5: for every name present in the registry, `DeleteVM` succeeds
regardless of the state of the resource.  If the record is Running, the
result is exactly the removal of the name from the intermediate registry in
which that record has first been set to Stopped — the record the removal
acts on is flagged Stopped, not Running; if the record is not Running, the
result is exactly the removal from the unchanged registry, whose record was
not flagged Running to begin with.  Afterwards the name no longer resolves
and no longer appears in `ListVMs`. -/
theorem deleteVM_always_succeeds (r : Registry) (n : String) (vm : MockVM)
    (h : lookupVM r n = some vm) :
    (DeleteVM r n).2 = none ∧
    (vm.state = VMStateRunning →
      DeleteVM r n =
        (removeVM (updateVM r n { vm with state := VMStateStopped }) n, none) ∧
      lookupVM (updateVM r n { vm with state := VMStateStopped }) n =
        some { vm with state := VMStateStopped } ∧
      ({ vm with state := VMStateStopped } : MockVM).state ≠ VMStateRunning) ∧
    (vm.state ≠ VMStateRunning → DeleteVM r n = (removeVM r n, none)) ∧
    lookupVM (DeleteVM r n).1 n = none ∧
    n ∉ (ListVMs (DeleteVM r n).1).2.1 := by
  have hnone : lookupVM (DeleteVM r n).1 n = none := by
    by_cases hs : vm.state = VMStateRunning
    · rw [deleteVM_running r n vm h hs]
      exact lookupVM_removeVM_self _ n
    · rw [deleteVM_notRunning r n vm h hs]
      exact lookupVM_removeVM_self r n
  have he : (DeleteVM r n).2 = none := by
    by_cases hs : vm.state = VMStateRunning
    · rw [deleteVM_running r n vm h hs]
    · rw [deleteVM_notRunning r n vm h hs]
  exact ⟨he,
    fun hs => ⟨deleteVM_running r n vm h hs,
      lookupVM_updateVM_self r n _ vm h,
      (by decide : VMStateStopped ≠ VMStateRunning)⟩,
    fun hs => deleteVM_notRunning r n vm h hs,
    hnone, not_mem_names_of_lookup_none (DeleteVM r n).1 n hnone⟩

/-- Witness for C5: deleting a running record from a one-entry registry
succeeds, goes through the stop-then-remove intermediate registry, and
empties the listing. -/
theorem deleteVM_always_succeeds_witness :
    (DeleteVM [("vm1", { config := sampleConfig, state := VMStateRunning })]
      "vm1").2 = none ∧
    DeleteVM [("vm1", { config := sampleConfig, state := VMStateRunning })]
      "vm1" =
      (removeVM (updateVM
        [("vm1", { config := sampleConfig, state := VMStateRunning })]
        "vm1" { config := sampleConfig, state := VMStateStopped }) "vm1",
        none) ∧
    "vm1" ∉ (ListVMs (DeleteVM
      [("vm1", { config := sampleConfig, state := VMStateRunning })] "vm1").1).2.1 :=
  ⟨(deleteVM_always_succeeds
      [("vm1", { config := sampleConfig, state := VMStateRunning })]
      "vm1" { config := sampleConfig, state := VMStateRunning } rfl).1,
   ((deleteVM_always_succeeds
      [("vm1", { config := sampleConfig, state := VMStateRunning })]
      "vm1" { config := sampleConfig, state := VMStateRunning } rfl).2.1 rfl).1,
   (deleteVM_always_succeeds
      [("vm1", { config := sampleConfig, state := VMStateRunning })]
      "vm1" { config := sampleConfig, state := VMStateRunning } rfl).2.2.2.2⟩

theorem option_none_or_some {α : Type} (o : Option α) :
    o = none ∨ ∃ a, o = some a := by
  cases o with
  | none => exact Or.inl rfl
  | some a => exact Or.inr ⟨a, rfl⟩

/-- C7: the configuration of a resource is never mutated after creation:
`StartVM` and `StopVM` keep the size of the registry, leave every record under a
different name unchanged, and leave the configuration of the named record
unchanged (only its state field may change); `DeleteVM` of one name leaves
all records under other names unchanged. -/
theorem ops_frame_config_immutable (r : Registry) (n q : String) (hq : q ≠ n) :
    lookupVM (StartVM r n).1 q = lookupVM r q ∧
    lookupVM (StopVM r n).1 q = lookupVM r q ∧
    lookupVM (DeleteVM r n).1 q = lookupVM r q ∧
    (StartVM r n).1.length = r.length ∧
    (StopVM r n).1.length = r.length ∧
    (∀ vm vm1, lookupVM r n = some vm →
      lookupVM (StartVM r n).1 n = some vm1 → vm1.config = vm.config) ∧
    (∀ vm vm1, lookupVM r n = some vm →
      lookupVM (StopVM r n).1 n = some vm1 → vm1.config = vm.config) := by
  refine ⟨?_, ?_, ?_, ?_, ?_, ?_, ?_⟩
  · cases h : lookupVM r n with
    | none => simp [StartVM, h]
    | some vm =>
      by_cases hs : vm.state = VMStateRunning
      · rw [startVM_noop r n vm h hs]
      · rw [startVM_transition r n vm h hs]
        exact lookupVM_updateVM_ne r n q _ hq
  · cases h : lookupVM r n with
    | none => simp [StopVM, h]
    | some vm =>
      by_cases hs : vm.state = VMStateStopped
      · rw [stopVM_noop r n vm h hs]
      · rw [stopVM_transition r n vm h hs]
        exact lookupVM_updateVM_ne r n q _ hq
  · cases h : lookupVM r n with
    | none => simp [DeleteVM, h]
    | some vm =>
      by_cases hs : vm.state = VMStateRunning
      · rw [deleteVM_running r n vm h hs,
          lookupVM_removeVM_ne _ n q hq]
        exact lookupVM_updateVM_ne r n q _ hq
      · rw [deleteVM_notRunning r n vm h hs]
        exact lookupVM_removeVM_ne r n q hq
  · cases h : lookupVM r n with
    | none => simp [StartVM, h]
    | some vm =>
      by_cases hs : vm.state = VMStateRunning
      · rw [startVM_noop r n vm h hs]
      · rw [startVM_transition r n vm h hs]
        simp [updateVM]
  · cases h : lookupVM r n with
    | none => simp [StopVM, h]
    | some vm =>
      by_cases hs : vm.state = VMStateStopped
      · rw [stopVM_noop r n vm h hs]
      · rw [stopVM_transition r n vm h hs]
        simp [updateVM]
  · intro vm vm1 h h1
    by_cases hs : vm.state = VMStateRunning
    · rw [startVM_noop r n vm h hs, h] at h1
      obtain rfl : vm = vm1 := Option.some.inj h1
      rfl
    · rw [startVM_transition r n vm h hs,
        lookupVM_updateVM_self r n _ vm h] at h1
      obtain rfl : { vm with state := VMStateRunning } = vm1 :=
        Option.some.inj h1
      rfl
  · intro vm vm1 h h1
    by_cases hs : vm.state = VMStateStopped
    · rw [stopVM_noop r n vm h hs, h] at h1
      obtain rfl : vm = vm1 := Option.some.inj h1
      rfl
    · rw [stopVM_transition r n vm h hs,
        lookupVM_updateVM_self r n _ vm h] at h1
      obtain rfl : { vm with state := VMStateStopped } = vm1 :=
        Option.some.inj h1
      rfl

/-- Witness for C7 on a two-entry registry: stopping one record leaves the
record under the other name unchanged. -/
theorem ops_frame_config_immutable_witness :
    lookupVM (StopVM
      [("vm1", { config := sampleConfig, state := VMStateRunning }),
       ("vm2", { config := sampleConfig, state := VMStateStopped })] "vm1").1
      "vm2" =
    lookupVM
      [("vm1", { config := sampleConfig, state := VMStateRunning }),
       ("vm2", { config := sampleConfig, state := VMStateStopped })] "vm2" :=
  (ops_frame_config_immutable
    [("vm1", { config := sampleConfig, state := VMStateRunning }),
     ("vm2", { config := sampleConfig, state := VMStateStopped })]
    "vm1" "vm2" (by decide)).2.1

/-- C8: no operation of the manager ever aborts: on every registry state and
every argument value (empty names, zero quantities, absent names included),
each operation returns normally with either a success (no error) or an
error value. In this embedding every operation is a total function into a
result-and-error pair, mirroring that every code path in the source ends in
a plain `return`. -/
theorem ops_always_return (r : Registry) (c : VMConfig) (n : String) :
    ((CreateVM r c).2 = none ∨ ∃ e, (CreateVM r c).2 = some e) ∧
    ((ListVMs r).2.2 = none ∨ ∃ e, (ListVMs r).2.2 = some e) ∧
    ((StartVM r n).2 = none ∨ ∃ e, (StartVM r n).2 = some e) ∧
    ((StopVM r n).2 = none ∨ ∃ e, (StopVM r n).2 = some e) ∧
    ((DeleteVM r n).2 = none ∨ ∃ e, (DeleteVM r n).2 = some e) ∧
    ((GetVMInfo r n).2.2 = none ∨ ∃ e, (GetVMInfo r n).2.2 = some e) ∧
    ((GetVMState r n).2.2 = none ∨ ∃ e, (GetVMState r n).2.2 = some e) ∧
    ((Close r).2 = none ∨ ∃ e, (Close r).2 = some e) :=
  ⟨option_none_or_some _, option_none_or_some _, option_none_or_some _,
   option_none_or_some _, option_none_or_some _, option_none_or_some _,
   option_none_or_some _, option_none_or_some _⟩

theorem getVMInfo_registry (r : Registry) (n : String) :
    (GetVMInfo r n).1 = r := by
  cases h : lookupVM r n <;> simp [GetVMInfo, h]

theorem getVMState_registry (r : Registry) (n : String) :
    (GetVMState r n).1 = r := by
  cases h : lookupVM r n <;> simp [GetVMState, h]

theorem createVM_registry_cases (r : Registry) (c : VMConfig) :
    (CreateVM r c).1 = r ∨
    (CreateVM r c).1 =
      (c.name, { config := c, state := VMStateRunning }) :: r := by
  by_cases h1 : (lookupVM r c.name).isSome
  · left
    rw [createVM_dup r c h1]
  · have h1' : lookupVM r c.name = none := by
      cases hl : lookupVM r c.name with
      | none => rfl
      | some vm => rw [hl] at h1; simp at h1
    by_cases h2 : c.name = ""
    · left
      rw [createVM_emptyName r c h1' h2]
    · by_cases h3 : c.memory = 0
      · left
        rw [createVM_zeroMemory r c h1' h2 h3]
      · by_cases h4 : c.vcpus = 0
        · left
          rw [createVM_zeroVCPUs r c h1' h2 h3 h4]
        · right
          rw [createVM_success r c h1' h2 h3 h4]

theorem startVM_registry_cases (r : Registry) (n : String) :
    (StartVM r n).1 = r ∨
    ∃ vm, lookupVM r n = some vm ∧
      (StartVM r n).1 = updateVM r n { vm with state := VMStateRunning } := by
  cases h : lookupVM r n with
  | none =>
    left
    simp [StartVM, h]
  | some vm =>
    by_cases hs : vm.state = VMStateRunning
    · left
      rw [startVM_noop r n vm h hs]
    · right
      exact ⟨vm, rfl, by rw [startVM_transition r n vm h hs]⟩

theorem stopVM_registry_cases (r : Registry) (n : String) :
    (StopVM r n).1 = r ∨
    ∃ vm, lookupVM r n = some vm ∧
      (StopVM r n).1 = updateVM r n { vm with state := VMStateStopped } := by
  cases h : lookupVM r n with
  | none =>
    left
    simp [StopVM, h]
  | some vm =>
    by_cases hs : vm.state = VMStateStopped
    · left
      rw [stopVM_noop r n vm h hs]
    · right
      exact ⟨vm, rfl, by rw [stopVM_transition r n vm h hs]⟩

theorem deleteVM_registry_cases (r : Registry) (n : String) :
    (DeleteVM r n).1 = r ∨
    (DeleteVM r n).1 = removeVM r n ∨
    ∃ vm : MockVM, (DeleteVM r n).1 =
      removeVM (updateVM r n { vm with state := VMStateStopped }) n := by
  cases h : lookupVM r n with
  | none =>
    left
    simp [DeleteVM, h]
  | some vm =>
    by_cases hs : vm.state = VMStateRunning
    · right
      right
      exact ⟨vm, by rw [deleteVM_running r n vm h hs]⟩
    · right
      left
      rw [deleteVM_notRunning r n vm h hs]

theorem reachable_stopped_or_running (r : Registry) (h : Reachable r) :
    ∀ p ∈ r, p.2.state = VMStateStopped ∨ p.2.state = VMStateRunning := by
  induction h with
  | empty =>
    intro p hp
    simp at hp
  | create r c hr ih =>
    intro p hp
    rcases createVM_registry_cases r c with hc | hc
    · rw [hc] at hp
      exact ih p hp
    · rw [hc] at hp
      rcases List.mem_cons.mp hp with hph | hpt
      · subst hph
        right
        rfl
      · exact ih p hpt
  | listvms r hr ih =>
    intro p hp
    exact ih p hp
  | startvm r n hr ih =>
    intro p hp
    rcases startVM_registry_cases r n with hc | ⟨vm, hl, hc⟩
    · rw [hc] at hp
      exact ih p hp
    · rw [hc] at hp
      rcases mem_updateVM r n _ p hp with hpr | hps
      · exact ih p hpr
      · right
        rw [hps]
  | stopvm r n hr ih =>
    intro p hp
    rcases stopVM_registry_cases r n with hc | ⟨vm, hl, hc⟩
    · rw [hc] at hp
      exact ih p hp
    · rw [hc] at hp
      rcases mem_updateVM r n _ p hp with hpr | hps
      · exact ih p hpr
      · left
        rw [hps]
  | deletevm r n hr ih =>
    intro p hp
    rcases deleteVM_registry_cases r n with hc | hc | ⟨vm, hc⟩
    · rw [hc] at hp
      exact ih p hp
    · rw [hc] at hp
      exact ih p (mem_removeVM r n p hp)
    · rw [hc] at hp
      have hp' := mem_removeVM _ n p hp
      rcases mem_updateVM r n _ p hp' with hpr | hps
      · exact ih p hpr
      · left
        rw [hps]
  | info r n hr ih =>
    intro p hp
    rw [getVMInfo_registry r n] at hp
    exact ih p hp
  | state r n hr ih =>
    intro p hp
    rw [getVMState_registry r n] at hp
    exact ih p hp
  | close r hr ih =>
    intro p hp
    exact ih p hp

/-- C6: in every registry state reachable from the empty registry by any
sequence of manager operations, the state of every stored record is one of
the three defined values Stopped, Running, Paused — and in fact never
Paused, since no operation produces it. -/
theorem reachable_state_always_defined (r : Registry) (p : String × MockVM)
    (h : Reachable r) (hp : p ∈ r) :
    (p.2.state = VMStateStopped ∨ p.2.state = VMStateRunning ∨
      p.2.state = VMStatePaused) ∧
    p.2.state ≠ VMStatePaused := by
  rcases reachable_stopped_or_running r h p hp with hs | hs
  · refine ⟨Or.inl hs, ?_⟩
    rw [hs]
    decide
  · refine ⟨Or.inr (Or.inl hs), ?_⟩
    rw [hs]
    decide

/-- Witness for C6: the record created by one `CreateVM` from the empty
registry has a defined state and is not Paused. -/
theorem reachable_state_always_defined_witness :
    (("vm1", { config := sampleConfig, state := VMStateRunning }) :
      String × MockVM).2.state ≠ VMStatePaused :=
  (reachable_state_always_defined (CreateVM [] sampleConfig).1
    ("vm1", { config := sampleConfig, state := VMStateRunning })
    (Reachable.create [] sampleConfig Reachable.empty) (by decide)).2

theorem runCreates_cons (r : Registry) (c : VMConfig) (rest : List VMConfig) :
    runCreates r (c :: rest) =
      ((runCreates (CreateVM r c).1 rest).1,
        (CreateVM r c).2 :: (runCreates (CreateVM r c).1 rest).2) :=
  rfl

theorem runCreates_dup (r : Registry) (c : VMConfig) (m : Nat)
    (h : (lookupVM r c.name).isSome) :
    runCreates r (List.replicate m c) =
      (r, List.replicate m (some (.alreadyExists c.name))) := by
  induction m with
  | zero => rfl
  | succ k ih =>
    rw [List.replicate_succ, runCreates_cons, createVM_dup r c h,
      List.replicate_succ]
    simp [ih]

/-- C9: the mutex in the source serializes concurrent `CreateVM` calls, so
N concurrent calls with the same valid configuration execute as N
sequential calls; exactly one of them succeeds, the other N−1 fail with
AlreadyExists, and the registry afterwards holds exactly one record for
that name. -/
theorem concurrent_create_one_winner (r : Registry) (c : VMConfig) (n : Nat)
    (habs : lookupVM r c.name = none) (hname : c.name ≠ "")
    (hmem : c.memory ≠ 0) (hcpu : c.vcpus ≠ 0) (hn : 1 ≤ n) :
    (runCreates r (List.replicate n c)).2.count none = 1 ∧
    (runCreates r (List.replicate n c)).2.count
      (some (.alreadyExists c.name)) = n - 1 ∧
    ((runCreates r (List.replicate n c)).1.filter
      (fun p => p.1 == c.name)).length = 1 := by
  obtain ⟨m, rfl⟩ : ∃ m, n = m + 1 :=
    ⟨n - 1, (Nat.succ_pred_eq_of_pos hn).symm⟩
  have hsucc : CreateVM r c =
      ((c.name, { config := c, state := VMStateRunning }) :: r, none) :=
    createVM_success r c habs hname hmem hcpu
  have h1 : (lookupVM
      ((c.name, { config := c, state := VMStateRunning }) :: r)
      c.name).isSome := by
    rw [lookupVM_cons, if_pos rfl]
    rfl
  have hrun : runCreates r (List.replicate (m + 1) c) =
      ((c.name, { config := c, state := VMStateRunning }) :: r,
        none :: List.replicate m (some (.alreadyExists c.name))) := by
    rw [List.replicate_succ, runCreates_cons, hsucc]
    simp [runCreates_dup _ c m h1]
  rw [hrun]
  refine ⟨?_, ?_, ?_⟩
  · rw [List.count_cons_self]
    simp [List.count_replicate]
  · rw [List.count_cons_of_ne (by simp)]
    simp [List.count_replicate_self]
  · rw [List.filter_cons_of_pos (by simp),
      filter_name_eq_nil_of_absent r c.name habs]
    rfl

/-- Witness for C9 with three creates of the same configuration on the
empty registry. -/
theorem concurrent_create_one_winner_witness :
    (runCreates [] (List.replicate 3 sampleConfig)).2.count none = 1 ∧
    (runCreates [] (List.replicate 3 sampleConfig)).2.count
      (some (.alreadyExists sampleConfig.name)) = 3 - 1 ∧
    ((runCreates [] (List.replicate 3 sampleConfig)).1.filter
      (fun p => p.1 == sampleConfig.name)).length = 1 :=
  concurrent_create_one_winner [] sampleConfig 3 rfl (by decide) (by decide)
    (by decide) (by decide)

end VMMgr
